import Mathlib

/-
Verification of the bookkeeping behaviour of the load-test harness in
scripts/load_test_users.py (class UserLoadTester).

The Python script drives a remote user service through two RPCs (Register,
Login).  The remote side is external to the repository, so every remote call
is modelled by an explicit outcome value: the call returned normally, raised
a grpc.RpcError carrying a status code and message, or raised some other
(non-RPC) exception.  The harness state (the six counters plus total_time in
self.stats, and self.created_users) is passed explicitly, and a Python
function that may raise returns an Except value whose error case models a
propagating exception.
-/

/-- gRPC status codes as far as the script distinguishes them: it compares
the code of a grpc.RpcError against grpc.StatusCode.RESOURCE_EXHAUSTED and
treats every other code uniformly (lines 96 and 114). -/
inductive StatusCode where
  | RESOURCE_EXHAUSTED
  | UNAVAILABLE
  | INTERNAL
  | UNAUTHENTICATED
  | DEADLINE_EXCEEDED
  | otherCode (name : String)
deriving DecidableEq

/-- Outcome of one remote Register call (line 86): the stub returns a
response carrying response.user.id, raises a grpc.RpcError whose str() is
msg, or raises a non-RPC exception. -/
inductive RegisterOutcome where
  | returns (user_id : String)
  | rpcError (code : StatusCode) (msg : String)
  | raises (msg : String)
deriving DecidableEq

/-- A Register call completes when the stub returns or raises an RPC error;
a non-RPC exception does not complete the call protocol of lines 80-101. -/
def RegisterOutcome.completes : RegisterOutcome → Bool
  | .raises _ => false
  | _ => true

/-- Outcome of one remote Login call (line 110): the stub returns a response
carrying response.access_token, raises a grpc.RpcError, or raises a non-RPC
exception. -/
inductive LoginOutcome where
  | returns (access_token : String)
  | rpcError (code : StatusCode) (msg : String)
  | raises (msg : String)
deriving DecidableEq

/-- A Login call completes when the stub returns or raises an RPC error. -/
def LoginOutcome.completes : LoginOutcome → Bool
  | .raises _ => false
  | _ => true

/-- The dict returned by register_user: lines 88-94 (success), line 98
(rate limited) and line 101 (other failure). -/
inductive RegisterResult where
  | ok (email password username user_id : String)
  | rateLimited (error : String)
  | failed (error : String)
deriving DecidableEq

/-- Value of result['success'] (the key is present in all three dicts). -/
def RegisterResult.success : RegisterResult → Bool
  | .ok .. => true
  | _ => false

/-- Truthiness of result.get('rate_limited'): the success dict has no such
key, so .get yields None, which is falsy. -/
def RegisterResult.rate_limited : RegisterResult → Bool
  | .rateLimited _ => true
  | _ => false

/-- Value of result.get('error'): only the two failure dicts carry it. -/
def RegisterResult.error : RegisterResult → Option String
  | .ok .. => none
  | .rateLimited e => some e
  | .failed e => some e

/-- Value of result.get('user_id'): only the success dict carries it. -/
def RegisterResult.user_id : RegisterResult → Option String
  | .ok _ _ _ i => some i
  | _ => none

/-- Value of result.get('email'): only the success dict carries it. -/
def RegisterResult.email : RegisterResult → Option String
  | .ok e _ _ _ => some e
  | _ => none

/-- Value of result.get('password'): only the success dict carries it. -/
def RegisterResult.password : RegisterResult → Option String
  | .ok _ p _ _ => some p
  | _ => none

/-- The dict returned by login_user: line 112 (success), line 116 (rate
limited) and line 119 (other failure). -/
inductive LoginResult where
  | ok (token : String)
  | rateLimited (error : String)
  | failed (error : String)
deriving DecidableEq

/-- Value of result['success'] for a login result dict. -/
def LoginResult.success : LoginResult → Bool
  | .ok _ => true
  | _ => false

/-- Truthiness of result.get('rate_limited') for a login result dict. -/
def LoginResult.rate_limited : LoginResult → Bool
  | .rateLimited _ => true
  | _ => false

/-- Value of result.get('error') for a login result dict. -/
def LoginResult.error : LoginResult → Option String
  | .ok _ => none
  | .rateLimited e => some e
  | .failed e => some e

/-- The self.stats dict initialised in UserLoadTester.__init__
(lines 42-50): six operation counters plus total_time. -/
structure Stats where
  register_success : Nat
  register_failed : Nat
  register_rate_limited : Nat
  login_success : Nat
  login_failed : Nat
  login_rate_limited : Nat
  total_time : Nat
deriving DecidableEq

/-- The mutable state of a UserLoadTester instance: self.stats and
self.created_users (lines 42-51). -/
structure TesterState where
  stats : Stats
  created_users : List RegisterResult
deriving DecidableEq

/-- Initial stats: every field starts at 0 (lines 42-50). -/
def initStats : Stats :=
  { register_success := 0, register_failed := 0, register_rate_limited := 0,
    login_success := 0, login_failed := 0, login_rate_limited := 0,
    total_time := 0 }

/-- Initial tester state: zero stats and an empty created_users list
(lines 42-51). -/
def initState : TesterState :=
  { stats := initStats, created_users := [] }

/-- string.ascii_lowercase. -/
def asciiLowercase : List Char := "abcdefghijklmnopqrstuvwxyz".toList

/-- string.ascii_uppercase. -/
def asciiUppercase : List Char := "ABCDEFGHIJKLMNOPQRSTUVWXYZ".toList

/-- string.digits. -/
def asciiDigits : List Char := "0123456789".toList

/-- string.ascii_letters + string.digits + "!@#$%", the population used by
generate_random_password (line 72). -/
def passwordAlphabet : List Char :=
  asciiLowercase ++ asciiUppercase ++ asciiDigits ++ "!@#$%".toList

/-- string.ascii_lowercase + string.digits, the population used for the
random email suffix (line 67). -/
def emailAlphabet : List Char := asciiLowercase ++ asciiDigits

/-- One random.choices pick from a population, with the choice of index
supplied explicitly: any natural number selects some element of the list. -/
def pickFrom (l : List Char) (n : Nat) : Char :=
  l.getD (n % l.length) 'a'

/-- The 6-character random_suffix of generate_random_email (line 67), with
the random choices supplied as a function from position to pick. -/
def randomSuffix (picks : Nat → Nat) : String :=
  String.mk ((List.range 6).map fun i => pickFrom emailAlphabet (picks i))

/-- generate_random_email (lines 65-68):
f"user{index}_{random_suffix}@loadtest.com".  The index argument is kept as
a string because callers pass both ints and strings. -/
def generate_random_email (index : String) (picks : Nat → Nat) : String :=
  "user" ++ index ++ "_" ++ randomSuffix picks ++ "@loadtest.com"

/-- generate_random_password (lines 70-72): 12 random.choices picks from
passwordAlphabet. -/
def generate_random_password (picks : Nat → Nat) : String :=
  String.mk ((List.range 12).map fun i => pickFrom passwordAlphabet (picks i))

/-- The timeout keyword argument of every stub.Register call (line 86). -/
def register_call_timeout : Option Nat := some 10

/-- The timeout keyword argument of every stub.Login call (line 110). -/
def login_call_timeout : Option Nat := some 10

/-- register_user (lines 74-101).  Generates credentials, issues the remote
Register call (whose behaviour is the outcome argument) and classifies the
result: a normal return increments register_success and yields the success
dict; a grpc.RpcError with code RESOURCE_EXHAUSTED increments
register_rate_limited; any other RpcError increments register_failed; a
non-RPC exception is not caught by the except clause on line 95 and
propagates (the Except.error case). -/
def register_user (st : TesterState) (index : String)
    (emailPicks pwPicks : Nat → Nat) (outcome : RegisterOutcome) :
    TesterState × Except String RegisterResult :=
  let email := generate_random_email index emailPicks
  let password := generate_random_password pwPicks
  let username := "user" ++ index
  match outcome with
  | .returns uid =>
    ({ st with stats :=
        { st.stats with register_success := st.stats.register_success + 1 } },
     Except.ok (RegisterResult.ok email password username uid))
  | .rpcError code msg =>
    if code = StatusCode.RESOURCE_EXHAUSTED then
      ({ st with stats :=
          { st.stats with
              register_rate_limited := st.stats.register_rate_limited + 1 } },
       Except.ok (RegisterResult.rateLimited msg))
    else
      ({ st with stats :=
          { st.stats with register_failed := st.stats.register_failed + 1 } },
       Except.ok (RegisterResult.failed msg))
  | .raises msg => (st, Except.error msg)

/-- login_user (lines 103-119).  Issues the remote Login call and classifies
the result exactly as register_user does, against the login counters. -/
def login_user (st : TesterState) (email password : String)
    (outcome : LoginOutcome) : TesterState × Except String LoginResult :=
  match outcome with
  | .returns token =>
    ({ st with stats :=
        { st.stats with login_success := st.stats.login_success + 1 } },
     Except.ok (LoginResult.ok token))
  | .rpcError code msg =>
    if code = StatusCode.RESOURCE_EXHAUSTED then
      ({ st with stats :=
          { st.stats with
              login_rate_limited := st.stats.login_rate_limited + 1 } },
       Except.ok (LoginResult.rateLimited msg))
    else
      ({ st with stats :=
          { st.stats with login_failed := st.stats.login_failed + 1 } },
       Except.ok (LoginResult.failed msg))
  | .raises msg => (st, Except.error msg)

/-- One registration attempt: the index argument the harness passes to
register_user, the random choices drawn inside it, and the behaviour of the
remote Register call for this attempt. -/
structure RegisterAttempt where
  index : String
  emailPicks : Nat → Nat
  pwPicks : Nat → Nat
  outcome : RegisterOutcome

/-- One login attempt: the credentials the harness passes to login_user and
the behaviour of the remote Login call for this attempt. -/
structure LoginAttempt where
  email : String
  password : String
  outcome : LoginOutcome

/-- A sequence of register_user calls in the order their remote calls
complete.  An attempt whose stub raises a non-RPC exception aborts the
sequence, since the exception propagates out of register_user. -/
def runRegisterList : TesterState → List RegisterAttempt → TesterState
  | st, [] => st
  | st, a :: rest =>
    let p := register_user st a.index a.emailPicks a.pwPicks a.outcome
    match p.2 with
    | Except.ok _ => runRegisterList p.1 rest
    | Except.error _ => p.1

/-- A sequence of login_user calls; a non-RPC exception aborts it. -/
def runLoginList : TesterState → List LoginAttempt → TesterState
  | st, [] => st
  | st, a :: rest =>
    let p := login_user st a.email a.password a.outcome
    match p.2 with
    | Except.ok _ => runLoginList p.1 rest
    | Except.error _ => p.1

/-- create_users_batch (lines 121-163), restricted to its state effects: it
runs register_user once per submitted index, appends each result with
result['success'] truthy to self.created_users (lines 141-144), and on
normal completion stores the elapsed time in stats['total_time'] (line 153).
The attempts list is given in completion order (as_completed yields futures
in an arbitrary order).  If some future raises a non-RPC exception,
future.result() re-raises it and the batch aborts before setting
total_time. -/
def create_users_batch : TesterState → List RegisterAttempt → Nat → TesterState
  | st, [], elapsed => { st with stats := { st.stats with total_time := elapsed } }
  | st, a :: rest, elapsed =>
    let p := register_user st a.index a.emailPicks a.pwPicks a.outcome
    match p.2 with
    | Except.ok r =>
      let st2 :=
        if r.success then { p.1 with created_users := p.1.created_users ++ [r] }
        else p.1
      create_users_batch st2 rest elapsed
    | Except.error _ => p.1

/-- The result dict that a registration attempt contributes to
created_users, if any: only an attempt whose remote call returns normally
produces a dict with result['success'] truthy. -/
def successEntry (a : RegisterAttempt) : Option RegisterResult :=
  match a.outcome with
  | RegisterOutcome.returns uid =>
    some (RegisterResult.ok (generate_random_email a.index a.emailPicks)
      (generate_random_password a.pwPicks) ("user" ++ a.index) uid)
  | _ => none

/-- test_rate_limiting_register (lines 165-198), restricted to its state
effects: n sequential register_user calls with indexes
f"ratelimit_test_{i}", tallying local success and rate-limited counts
per the branch on lines 178-185; it never touches created_users.  Calls are
made for i = 0, 1, ..., n-1 in order; the pair returned with the state is
(success_count, rate_limited_count).  A non-RPC exception propagates. -/
def test_rate_limiting_register (st : TesterState)
    (ePicks pPicks : Nat → Nat → Nat) (stub : Nat → RegisterOutcome) :
    Nat → TesterState × Except String (Nat × Nat)
  | 0 => (st, Except.ok (0, 0))
  | n + 1 =>
    let q := test_rate_limiting_register st ePicks pPicks stub n
    match q.2 with
    | Except.ok (succ, rl) =>
      let p := register_user q.1 ("ratelimit_test_" ++ toString n)
          (ePicks n) (pPicks n) (stub n)
      match p.2 with
      | Except.ok r =>
        if r.rate_limited then (p.1, Except.ok (succ, rl + 1))
        else if r.success then (p.1, Except.ok (succ + 1, rl))
        else (p.1, Except.ok (succ, rl))
      | Except.error e => (p.1, Except.error e)
    | Except.error e => (q.1, Except.error e)

/-- Sum of the three registration counters. -/
def regSum (st : TesterState) : Nat :=
  st.stats.register_success + st.stats.register_failed +
    st.stats.register_rate_limited

/-- Sum of the three login counters. -/
def loginSum (st : TesterState) : Nat :=
  st.stats.login_success + st.stats.login_failed +
    st.stats.login_rate_limited

/-- Pointwise order on the six operation counters. -/
def counterLE (a b : Stats) : Prop :=
  a.register_success ≤ b.register_success ∧
  a.register_failed ≤ b.register_failed ∧
  a.register_rate_limited ≤ b.register_rate_limited ∧
  a.login_success ≤ b.login_success ∧
  a.login_failed ≤ b.login_failed ∧
  a.login_rate_limited ≤ b.login_rate_limited

/-- Frame condition for one completed call: every one of the six counters is
unchanged or incremented by one, their sum grows by exactly one (so exactly
one counter was incremented, by exactly one), and total_time is unchanged. -/
def stepFrame (old new : Stats) : Prop :=
  (new.register_success = old.register_success ∨
     new.register_success = old.register_success + 1) ∧
  (new.register_failed = old.register_failed ∨
     new.register_failed = old.register_failed + 1) ∧
  (new.register_rate_limited = old.register_rate_limited ∨
     new.register_rate_limited = old.register_rate_limited + 1) ∧
  (new.login_success = old.login_success ∨
     new.login_success = old.login_success + 1) ∧
  (new.login_failed = old.login_failed ∨
     new.login_failed = old.login_failed + 1) ∧
  (new.login_rate_limited = old.login_rate_limited ∨
     new.login_rate_limited = old.login_rate_limited + 1) ∧
  (new.register_success + new.register_failed + new.register_rate_limited +
     new.login_success + new.login_failed + new.login_rate_limited =
   old.register_success + old.register_failed + old.register_rate_limited +
     old.login_success + old.login_failed + old.login_rate_limited + 1) ∧
  new.total_time = old.total_time

/-- How the run of main's try block ends (lines 291-329): normally, with a
KeyboardInterrupt, or with any other exception. -/
inductive RunOutcome where
  | normal
  | keyboardInterrupt
  | unexpectedError (msg : String)
deriving DecidableEq

/-- Observable top-level effects of main's handlers (lines 316-329):
whether print_summary ran, whether an error message was printed, and whether
the finally block disconnected the channel. -/
structure MainEffects where
  summaryPrinted : Bool
  errorLogged : Bool
  disconnected : Bool
deriving DecidableEq

/-- main's top-level handling (lines 291-329): a normal run reaches
tester.print_summary() on line 317; KeyboardInterrupt prints the interrupt
message and calls tester.print_summary() (lines 319-321); any other
exception prints the error and a traceback but never calls print_summary
(lines 322-325); the finally block always disconnects (lines 326-328). -/
def mainHandler : RunOutcome → MainEffects
  | RunOutcome.normal =>
    { summaryPrinted := true, errorLogged := false, disconnected := true }
  | RunOutcome.keyboardInterrupt =>
    { summaryPrinted := true, errorLogged := true, disconnected := true }
  | RunOutcome.unexpectedError _ =>
    { summaryPrinted := false, errorLogged := true, disconnected := true }

/-- The mocked remote stub of testable property (3): it rejects exactly
every 4th call (the calls numbered 4, 8, 12, ... in submission order, i.e.
zero-based index k with (k+1) divisible by 4) with a RESOURCE_EXHAUSTED
error and returns normally otherwise. -/
def mockStub (k : Nat) : RegisterOutcome :=
  if (k + 1) % 4 = 0 then
    RegisterOutcome.rpcError StatusCode.RESOURCE_EXHAUSTED "resource exhausted"
  else
    RegisterOutcome.returns ("mock-user-" ++ toString k)

/-- N registration attempts against the mocked stub, in order. -/
def mock_attempts (n : Nat) : List RegisterAttempt :=
  (List.range n).map fun k =>
    { index := toString k, emailPicks := fun _ => 0, pwPicks := fun _ => 0,
      outcome := mockStub k }

theorem pickFrom_mem (l : List Char) (h : l ≠ []) (n : Nat) :
    pickFrom l n ∈ l := by
  have hpos : 0 < l.length := List.length_pos.mpr h
  have hlt : n % l.length < l.length := Nat.mod_lt _ hpos
  unfold pickFrom
  rw [List.getD_eq_getElem l 'a' hlt]
  exact List.getElem_mem hlt

theorem generate_random_password_length (pp : Nat → Nat) :
    (generate_random_password pp).length = 12 := by
  show ((List.range 12).map fun i => pickFrom passwordAlphabet (pp i)).length = 12
  rw [List.length_map, List.length_range]

theorem generate_random_password_chars (pp : Nat → Nat) :
    ∀ c ∈ (generate_random_password pp).toList, c ∈ passwordAlphabet := by
  intro c hc
  have hc2 : c ∈ (List.range 12).map fun i => pickFrom passwordAlphabet (pp i) := hc
  obtain ⟨i, _, rfl⟩ := List.mem_map.mp hc2
  exact pickFrom_mem passwordAlphabet (by decide) (pp i)

theorem randomSuffix_length (ep : Nat → Nat) : (randomSuffix ep).length = 6 := by
  show ((List.range 6).map fun i => pickFrom emailAlphabet (ep i)).length = 6
  rw [List.length_map, List.length_range]

theorem randomSuffix_chars (ep : Nat → Nat) :
    ∀ c ∈ (randomSuffix ep).toList, c ∈ emailAlphabet := by
  intro c hc
  have hc2 : c ∈ (List.range 6).map fun i => pickFrom emailAlphabet (ep i) := hc
  obtain ⟨i, _, rfl⟩ := List.mem_map.mp hc2
  exact pickFrom_mem emailAlphabet (by decide) (ep i)

theorem generate_random_email_ne_empty (index : String) (ep : Nat → Nat) :
    generate_random_email index ep ≠ "" := by
  intro h
  have hlen : (generate_random_email index ep).length = 0 := by rw [h]; rfl
  rw [generate_random_email] at hlen
  simp only [String.length_append] at hlen
  have h13 : ("@loadtest.com" : String).length = 13 := rfl
  omega

theorem generate_random_password_ne_empty (pp : Nat → Nat) :
    generate_random_password pp ≠ "" := by
  intro h
  have hlen : (generate_random_password pp).length = 0 := by rw [h]; rfl
  rw [generate_random_password_length] at hlen
  omega

theorem register_user_created_users (st : TesterState) (i : String)
    (ep pp : Nat → Nat) (o : RegisterOutcome) :
    (register_user st i ep pp o).1.created_users = st.created_users := by
  cases o with
  | returns uid => rfl
  | rpcError code msg =>
    by_cases hc : code = StatusCode.RESOURCE_EXHAUSTED <;>
      simp [register_user, hc]
  | raises msg => rfl

theorem register_user_total_time (st : TesterState) (i : String)
    (ep pp : Nat → Nat) (o : RegisterOutcome) :
    (register_user st i ep pp o).1.stats.total_time = st.stats.total_time := by
  cases o with
  | returns uid => rfl
  | rpcError code msg =>
    by_cases hc : code = StatusCode.RESOURCE_EXHAUSTED <;>
      simp [register_user, hc]
  | raises msg => rfl

theorem login_user_created_users (st : TesterState) (email password : String)
    (o : LoginOutcome) :
    (login_user st email password o).1.created_users = st.created_users := by
  cases o with
  | returns t => rfl
  | rpcError code msg =>
    by_cases hc : code = StatusCode.RESOURCE_EXHAUSTED <;>
      simp [login_user, hc]
  | raises msg => rfl

theorem regSum_register_user (st : TesterState) (i : String)
    (ep pp : Nat → Nat) (o : RegisterOutcome) (h : o.completes = true) :
    regSum (register_user st i ep pp o).1 = regSum st + 1 := by
  cases o with
  | returns uid => simp [register_user, regSum]; omega
  | rpcError code msg =>
    by_cases hc : code = StatusCode.RESOURCE_EXHAUSTED <;>
      simp [register_user, regSum, hc] <;> omega
  | raises msg => simp [RegisterOutcome.completes] at h

theorem loginSum_register_user (st : TesterState) (i : String)
    (ep pp : Nat → Nat) (o : RegisterOutcome) :
    loginSum (register_user st i ep pp o).1 = loginSum st := by
  cases o with
  | returns uid => rfl
  | rpcError code msg =>
    by_cases hc : code = StatusCode.RESOURCE_EXHAUSTED <;>
      simp [register_user, loginSum, hc]
  | raises msg => rfl

theorem loginSum_login_user (st : TesterState) (email password : String)
    (o : LoginOutcome) (h : o.completes = true) :
    loginSum (login_user st email password o).1 = loginSum st + 1 := by
  cases o with
  | returns t => simp [login_user, loginSum]; omega
  | rpcError code msg =>
    by_cases hc : code = StatusCode.RESOURCE_EXHAUSTED <;>
      simp [login_user, loginSum, hc] <;> omega
  | raises msg => simp [LoginOutcome.completes] at h

theorem regSum_login_user (st : TesterState) (email password : String)
    (o : LoginOutcome) :
    regSum (login_user st email password o).1 = regSum st := by
  cases o with
  | returns t => rfl
  | rpcError code msg =>
    by_cases hc : code = StatusCode.RESOURCE_EXHAUSTED <;>
      simp [login_user, regSum, hc]
  | raises msg => rfl

theorem register_user_ok_of_completes (st : TesterState) (i : String)
    (ep pp : Nat → Nat) (o : RegisterOutcome) (h : o.completes = true) :
    ∃ r, (register_user st i ep pp o).2 = Except.ok r := by
  cases o with
  | returns uid => exact ⟨_, rfl⟩
  | rpcError code msg =>
    by_cases hc : code = StatusCode.RESOURCE_EXHAUSTED
    · exact ⟨RegisterResult.rateLimited msg, by simp [register_user, hc]⟩
    · exact ⟨RegisterResult.failed msg, by simp [register_user, hc]⟩
  | raises msg => simp [RegisterOutcome.completes] at h

theorem login_user_ok_of_completes (st : TesterState) (email password : String)
    (o : LoginOutcome) (h : o.completes = true) :
    ∃ r, (login_user st email password o).2 = Except.ok r := by
  cases o with
  | returns t => exact ⟨_, rfl⟩
  | rpcError code msg =>
    by_cases hc : code = StatusCode.RESOURCE_EXHAUSTED
    · exact ⟨LoginResult.rateLimited msg, by simp [login_user, hc]⟩
    · exact ⟨LoginResult.failed msg, by simp [login_user, hc]⟩
  | raises msg => simp [LoginOutcome.completes] at h

theorem regSum_runRegisterList (attempts : List RegisterAttempt)
    (h : ∀ a ∈ attempts, a.outcome.completes = true) (st : TesterState) :
    regSum (runRegisterList st attempts) = regSum st + attempts.length := by
  induction attempts generalizing st with
  | nil => rfl
  | cons a rest ih =>
    have ha : a.outcome.completes = true := h a (List.mem_cons_self a rest)
    have hrest : ∀ b ∈ rest, b.outcome.completes = true :=
      fun b hb => h b (List.mem_cons_of_mem a hb)
    obtain ⟨r, hr⟩ := register_user_ok_of_completes st a.index a.emailPicks
      a.pwPicks a.outcome ha
    rw [runRegisterList]
    simp only [hr]
    rw [ih hrest, regSum_register_user _ _ _ _ _ ha]
    simp [List.length_cons]
    omega

theorem loginSum_runRegisterList (attempts : List RegisterAttempt)
    (st : TesterState) :
    loginSum (runRegisterList st attempts) = loginSum st := by
  induction attempts generalizing st with
  | nil => rfl
  | cons a rest ih =>
    rw [runRegisterList]
    cases hE : (register_user st a.index a.emailPicks a.pwPicks a.outcome).2 with
    | ok r =>
      simp only [hE]
      rw [ih, ← loginSum_register_user st a.index a.emailPicks a.pwPicks a.outcome]
    | error e =>
      simp only [hE]
      rw [← loginSum_register_user st a.index a.emailPicks a.pwPicks a.outcome]

theorem loginSum_runLoginList (attempts : List LoginAttempt)
    (h : ∀ a ∈ attempts, a.outcome.completes = true) (st : TesterState) :
    loginSum (runLoginList st attempts) = loginSum st + attempts.length := by
  induction attempts generalizing st with
  | nil => rfl
  | cons a rest ih =>
    have ha : a.outcome.completes = true := h a (List.mem_cons_self a rest)
    have hrest : ∀ b ∈ rest, b.outcome.completes = true :=
      fun b hb => h b (List.mem_cons_of_mem a hb)
    obtain ⟨r, hr⟩ := login_user_ok_of_completes st a.email a.password a.outcome ha
    rw [runLoginList]
    simp only [hr]
    rw [ih hrest, loginSum_login_user _ _ _ _ ha]
    simp [List.length_cons]
    omega

theorem regSum_runLoginList (attempts : List LoginAttempt) (st : TesterState) :
    regSum (runLoginList st attempts) = regSum st := by
  induction attempts generalizing st with
  | nil => rfl
  | cons a rest ih =>
    rw [runLoginList]
    cases hE : (login_user st a.email a.password a.outcome).2 with
    | ok r =>
      simp only [hE]
      rw [ih, ← regSum_login_user st a.email a.password a.outcome]
    | error e =>
      simp only [hE]
      rw [← regSum_login_user st a.email a.password a.outcome]

theorem runRegisterList_append (l1 l2 : List RegisterAttempt)
    (h : ∀ a ∈ l1, a.outcome.completes = true) (st : TesterState) :
    runRegisterList st (l1 ++ l2)
      = runRegisterList (runRegisterList st l1) l2 := by
  induction l1 generalizing st with
  | nil => rfl
  | cons a rest ih =>
    have ha : a.outcome.completes = true := h a (List.mem_cons_self a rest)
    obtain ⟨r, hr⟩ := register_user_ok_of_completes st a.index a.emailPicks
      a.pwPicks a.outcome ha
    rw [List.cons_append]
    rw [runRegisterList]
    conv_rhs => rw [runRegisterList]
    simp only [hr]
    exact ih (fun b hb => h b (List.mem_cons_of_mem a hb)) _

theorem runRegisterList_singleton (st : TesterState) (a : RegisterAttempt) :
    runRegisterList st [a]
      = (register_user st a.index a.emailPicks a.pwPicks a.outcome).1 := by
  rw [runRegisterList]
  cases hE : (register_user st a.index a.emailPicks a.pwPicks a.outcome).2 with
  | ok r => simp only [hE]; rfl
  | error e => simp only [hE]

theorem mock_attempts_succ (n : Nat) :
    mock_attempts (n + 1) = mock_attempts n ++
      [{ index := toString n, emailPicks := fun _ => 0, pwPicks := fun _ => 0,
         outcome := mockStub n }] := by
  unfold mock_attempts
  rw [List.range_succ, List.map_append]
  rfl

theorem mock_attempts_completes (n : Nat) :
    ∀ a ∈ mock_attempts n, a.outcome.completes = true := by
  intro a ha
  unfold mock_attempts at ha
  obtain ⟨k, _, rfl⟩ := List.mem_map.mp ha
  show (mockStub k).completes = true
  unfold mockStub
  by_cases h4 : (k + 1) % 4 = 0
  · rw [if_pos h4]; rfl
  · rw [if_neg h4]; rfl

theorem mock_counts (n : Nat) :
    (runRegisterList initState (mock_attempts n)).stats.register_rate_limited
        = n / 4 ∧
    (runRegisterList initState (mock_attempts n)).stats.register_success
        = n - n / 4 ∧
    (runRegisterList initState (mock_attempts n)).stats.register_failed = 0 := by
  induction n with
  | zero => exact ⟨rfl, rfl, rfl⟩
  | succ n ih =>
    obtain ⟨ih1, ih2, ih3⟩ := ih
    rw [mock_attempts_succ, runRegisterList_append _ _ (mock_attempts_completes n),
      runRegisterList_singleton]
    show _ ∧ _ ∧ _
    unfold mockStub
    by_cases h4 : (n + 1) % 4 = 0
    · rw [if_pos h4]
      simp only [register_user, if_pos rfl]
      refine ⟨?_, ?_, ?_⟩
      · show (runRegisterList initState
            (mock_attempts n)).stats.register_rate_limited + 1 = (n + 1) / 4
        rw [ih1]
        omega
      · show (runRegisterList initState (mock_attempts n)).stats.register_success
            = (n + 1) - (n + 1) / 4
        rw [ih2]
        omega
      · exact ih3
    · rw [if_neg h4]
      simp only [register_user]
      refine ⟨?_, ?_, ?_⟩
      · show (runRegisterList initState
            (mock_attempts n)).stats.register_rate_limited = (n + 1) / 4
        rw [ih1]
        omega
      · show (runRegisterList initState
            (mock_attempts n)).stats.register_success + 1 = (n + 1) - (n + 1) / 4
        rw [ih2]
        omega
      · exact ih3

theorem create_users_batch_created (attempts : List RegisterAttempt)
    (h : ∀ a ∈ attempts, a.outcome.completes = true) (st : TesterState)
    (elapsed : Nat) :
    (create_users_batch st attempts elapsed).created_users
      = st.created_users ++ attempts.filterMap successEntry := by
  induction attempts generalizing st with
  | nil => simp [create_users_batch]
  | cons a rest ih =>
    have ha : a.outcome.completes = true := h a (List.mem_cons_self a rest)
    have hrest : ∀ b ∈ rest, b.outcome.completes = true :=
      fun b hb => h b (List.mem_cons_of_mem a hb)
    cases h2 : a.outcome with
    | returns uid =>
      rw [create_users_batch]
      have hr : (register_user st a.index a.emailPicks a.pwPicks a.outcome).2
          = Except.ok (RegisterResult.ok
              (generate_random_email a.index a.emailPicks)
              (generate_random_password a.pwPicks) ("user" ++ a.index) uid) := by
        rw [h2]
        rfl
      simp only [hr]
      have hs : (RegisterResult.ok (generate_random_email a.index a.emailPicks)
          (generate_random_password a.pwPicks) ("user" ++ a.index) uid).success
            = true := rfl
      rw [if_pos hs]
      rw [ih hrest]
      show (register_user st a.index a.emailPicks a.pwPicks
            a.outcome).1.created_users
          ++ [RegisterResult.ok (generate_random_email a.index a.emailPicks)
              (generate_random_password a.pwPicks) ("user" ++ a.index) uid]
          ++ List.filterMap successEntry rest
        = st.created_users ++ List.filterMap successEntry (a :: rest)
      rw [register_user_created_users]
      rw [List.append_assoc]
      congr 1
      rw [List.filterMap_cons]
      simp [successEntry, h2]
    | rpcError code msg =>
      rw [create_users_batch]
      have hse : successEntry a = none := by simp [successEntry, h2]
      by_cases hc : code = StatusCode.RESOURCE_EXHAUSTED
      · have hr : (register_user st a.index a.emailPicks a.pwPicks a.outcome).2
            = Except.ok (RegisterResult.rateLimited msg) := by
          rw [h2]; simp [register_user, hc]
        simp only [hr]
        rw [if_neg (by simp [RegisterResult.success])]
        rw [ih hrest, register_user_created_users, List.filterMap_cons, hse]
      · have hr : (register_user st a.index a.emailPicks a.pwPicks a.outcome).2
            = Except.ok (RegisterResult.failed msg) := by
          rw [h2]; simp [register_user, hc]
        simp only [hr]
        rw [if_neg (by simp [RegisterResult.success])]
        rw [ih hrest, register_user_created_users, List.filterMap_cons, hse]
    | raises msg =>
      rw [h2] at ha
      simp [RegisterOutcome.completes] at ha

theorem successEntry_spec (attempts : List RegisterAttempt) (r : RegisterResult)
    (hr : r ∈ attempts.filterMap successEntry) :
    ∃ a ∈ attempts, ∃ uid, a.outcome = RegisterOutcome.returns uid ∧
      r = RegisterResult.ok (generate_random_email a.index a.emailPicks)
        (generate_random_password a.pwPicks) ("user" ++ a.index) uid := by
  rw [List.mem_filterMap] at hr
  obtain ⟨a, ha, hsa⟩ := hr
  cases h2 : a.outcome with
  | returns uid =>
    unfold successEntry at hsa
    rw [h2] at hsa
    simp only [Option.some.injEq] at hsa
    exact ⟨a, ha, uid, h2, hsa.symm⟩
  | rpcError code msg =>
    unfold successEntry at hsa
    rw [h2] at hsa
    simp at hsa
  | raises msg =>
    unfold successEntry at hsa
    rw [h2] at hsa
    simp at hsa

theorem register_user_stepFrame (st : TesterState) (i : String)
    (ep pp : Nat → Nat) (o : RegisterOutcome) (h : o.completes = true) :
    stepFrame st.stats (register_user st i ep pp o).1.stats := by
  cases o with
  | returns uid => simp [register_user, stepFrame] <;> omega
  | rpcError code msg =>
    by_cases hc : code = StatusCode.RESOURCE_EXHAUSTED <;>
      simp [register_user, stepFrame, hc] <;> omega
  | raises msg => simp [RegisterOutcome.completes] at h

theorem login_user_stepFrame (st : TesterState) (email password : String)
    (o : LoginOutcome) (h : o.completes = true) :
    stepFrame st.stats (login_user st email password o).1.stats := by
  cases o with
  | returns t => simp [login_user, stepFrame] <;> omega
  | rpcError code msg =>
    by_cases hc : code = StatusCode.RESOURCE_EXHAUSTED <;>
      simp [login_user, stepFrame, hc] <;> omega
  | raises msg => simp [LoginOutcome.completes] at h

theorem counterLE_refl (a : Stats) : counterLE a a := by
  unfold counterLE
  omega

theorem counterLE_trans {a b c : Stats} (h1 : counterLE a b)
    (h2 : counterLE b c) : counterLE a c := by
  unfold counterLE at *
  omega

theorem register_user_counterLE (st : TesterState) (i : String)
    (ep pp : Nat → Nat) (o : RegisterOutcome) :
    counterLE st.stats (register_user st i ep pp o).1.stats := by
  cases o with
  | returns uid => simp [register_user, counterLE]
  | rpcError code msg =>
    by_cases hc : code = StatusCode.RESOURCE_EXHAUSTED <;>
      simp [register_user, counterLE, hc]
  | raises msg => exact counterLE_refl _

theorem login_user_counterLE (st : TesterState) (email password : String)
    (o : LoginOutcome) :
    counterLE st.stats (login_user st email password o).1.stats := by
  cases o with
  | returns t => simp [login_user, counterLE]
  | rpcError code msg =>
    by_cases hc : code = StatusCode.RESOURCE_EXHAUSTED <;>
      simp [login_user, counterLE, hc]
  | raises msg => exact counterLE_refl _

theorem runRegisterList_counterLE (attempts : List RegisterAttempt)
    (st : TesterState) :
    counterLE st.stats (runRegisterList st attempts).stats := by
  induction attempts generalizing st with
  | nil => exact counterLE_refl _
  | cons a rest ih =>
    rw [runRegisterList]
    cases hE : (register_user st a.index a.emailPicks a.pwPicks a.outcome).2 with
    | ok r =>
      simp only [hE]
      exact counterLE_trans
        (register_user_counterLE st a.index a.emailPicks a.pwPicks a.outcome)
        (ih _)
    | error e =>
      simp only [hE]
      exact register_user_counterLE st a.index a.emailPicks a.pwPicks a.outcome

theorem runLoginList_counterLE (attempts : List LoginAttempt)
    (st : TesterState) :
    counterLE st.stats (runLoginList st attempts).stats := by
  induction attempts generalizing st with
  | nil => exact counterLE_refl _
  | cons a rest ih =>
    rw [runLoginList]
    cases hE : (login_user st a.email a.password a.outcome).2 with
    | ok r =>
      simp only [hE]
      exact counterLE_trans
        (login_user_counterLE st a.email a.password a.outcome) (ih _)
    | error e =>
      simp only [hE]
      exact login_user_counterLE st a.email a.password a.outcome

theorem create_users_batch_counterLE (attempts : List RegisterAttempt)
    (st : TesterState) (elapsed : Nat) :
    counterLE st.stats (create_users_batch st attempts elapsed).stats := by
  induction attempts generalizing st with
  | nil =>
    rw [create_users_batch]
    unfold counterLE
    simp
  | cons a rest ih =>
    rw [create_users_batch]
    cases hE : (register_user st a.index a.emailPicks a.pwPicks a.outcome).2 with
    | ok r =>
      simp only [hE]
      by_cases hs : r.success = true
      · rw [if_pos hs]
        refine counterLE_trans ?_ (ih _)
        exact register_user_counterLE st a.index a.emailPicks a.pwPicks a.outcome
      · rw [if_neg hs]
        exact counterLE_trans
          (register_user_counterLE st a.index a.emailPicks a.pwPicks a.outcome)
          (ih _)
    | error e =>
      simp only [hE]
      exact register_user_counterLE st a.index a.emailPicks a.pwPicks a.outcome

theorem test_rate_limiting_register_created_users (st : TesterState)
    (ePicks pPicks : Nat → Nat → Nat) (stub : Nat → RegisterOutcome) (n : Nat) :
    (test_rate_limiting_register st ePicks pPicks stub n).1.created_users
      = st.created_users := by
  induction n with
  | zero => rfl
  | succ n ih =>
    rw [test_rate_limiting_register]
    cases hQ : (test_rate_limiting_register st ePicks pPicks stub n).2 with
    | ok pr =>
      obtain ⟨succ, rl⟩ := pr
      simp only [hQ]
      cases hP : (register_user (test_rate_limiting_register st ePicks pPicks
          stub n).1 ("ratelimit_test_" ++ toString n) (ePicks n) (pPicks n)
          (stub n)).2 with
      | ok r =>
        simp only [hP]
        by_cases hrl : r.rate_limited = true
        · rw [if_pos hrl]
          rw [register_user_created_users, ih]
        · rw [if_neg hrl]
          by_cases hs : r.success = true
          · rw [if_pos hs]
            rw [register_user_created_users, ih]
          · rw [if_neg hs]
            rw [register_user_created_users, ih]
      | error e =>
        simp only [hP]
        rw [register_user_created_users, ih]
    | error e =>
      simp only [hQ]
      exact ih

theorem test_rate_limiting_register_counterLE (st : TesterState)
    (ePicks pPicks : Nat → Nat → Nat) (stub : Nat → RegisterOutcome) (n : Nat) :
    counterLE st.stats
      (test_rate_limiting_register st ePicks pPicks stub n).1.stats := by
  induction n with
  | zero => exact counterLE_refl _
  | succ n ih =>
    rw [test_rate_limiting_register]
    cases hQ : (test_rate_limiting_register st ePicks pPicks stub n).2 with
    | ok pr =>
      obtain ⟨succ, rl⟩ := pr
      simp only [hQ]
      cases hP : (register_user (test_rate_limiting_register st ePicks pPicks
          stub n).1 ("ratelimit_test_" ++ toString n) (ePicks n) (pPicks n)
          (stub n)).2 with
      | ok r =>
        simp only [hP]
        by_cases hrl : r.rate_limited = true
        · rw [if_pos hrl]
          exact counterLE_trans ih (register_user_counterLE _ _ _ _ _)
        · rw [if_neg hrl]
          by_cases hs : r.success = true
          · rw [if_pos hs]
            exact counterLE_trans ih (register_user_counterLE _ _ _ _ _)
          · rw [if_neg hs]
            exact counterLE_trans ih (register_user_counterLE _ _ _ _ _)
      | error e =>
        simp only [hP]
        exact counterLE_trans ih (register_user_counterLE _ _ _ _ _)
    | error e =>
      simp only [hQ]
      exact ih

theorem regSum_create_users_batch (attempts : List RegisterAttempt)
    (h : ∀ a ∈ attempts, a.outcome.completes = true) (st : TesterState)
    (elapsed : Nat) :
    regSum (create_users_batch st attempts elapsed)
      = regSum st + attempts.length := by
  induction attempts generalizing st with
  | nil => rfl
  | cons a rest ih =>
    have ha : a.outcome.completes = true := h a (List.mem_cons_self a rest)
    have hrest : ∀ b ∈ rest, b.outcome.completes = true :=
      fun b hb => h b (List.mem_cons_of_mem a hb)
    obtain ⟨r, hr⟩ := register_user_ok_of_completes st a.index a.emailPicks
      a.pwPicks a.outcome ha
    rw [create_users_batch]
    simp only [hr]
    by_cases hs : r.success = true
    · rw [if_pos hs]
      rw [ih hrest]
      have hset : regSum
          { (register_user st a.index a.emailPicks a.pwPicks a.outcome).1 with
            created_users :=
              (register_user st a.index a.emailPicks a.pwPicks
                a.outcome).1.created_users ++ [r] }
          = regSum (register_user st a.index a.emailPicks a.pwPicks a.outcome).1 :=
        rfl
      rw [hset, regSum_register_user _ _ _ _ _ ha]
      simp only [List.length_cons]
      omega
    · rw [if_neg hs]
      rw [ih hrest, regSum_register_user _ _ _ _ _ ha]
      simp only [List.length_cons]
      omega

/-- C1: for every Register or Login call whose remote call raises an RPC
error, the error is classified two ways only: a RESOURCE_EXHAUSTED status
increments the operation's rate-limited counter and yields a record with
success false and rate_limited true; any other status increments the
operation's failed counter and yields a record with success false,
rate_limited false, carrying the error's message unclassified. -/
theorem spec_error_classification (st : TesterState)
    (index email password : String) (ep pp : Nat → Nat) (code : StatusCode)
    (msg : String) :
    (code = StatusCode.RESOURCE_EXHAUSTED →
      (register_user st index ep pp
          (RegisterOutcome.rpcError code msg)).1.stats.register_rate_limited
        = st.stats.register_rate_limited + 1 ∧
      (register_user st index ep pp (RegisterOutcome.rpcError code msg)).2
        = Except.ok (RegisterResult.rateLimited msg) ∧
      (RegisterResult.rateLimited msg).success = false ∧
      (RegisterResult.rateLimited msg).rate_limited = true ∧
      (RegisterResult.rateLimited msg).error = some msg ∧
      (login_user st email password
          (LoginOutcome.rpcError code msg)).1.stats.login_rate_limited
        = st.stats.login_rate_limited + 1 ∧
      (login_user st email password (LoginOutcome.rpcError code msg)).2
        = Except.ok (LoginResult.rateLimited msg) ∧
      (LoginResult.rateLimited msg).success = false ∧
      (LoginResult.rateLimited msg).rate_limited = true) ∧
    (code ≠ StatusCode.RESOURCE_EXHAUSTED →
      (register_user st index ep pp
          (RegisterOutcome.rpcError code msg)).1.stats.register_failed
        = st.stats.register_failed + 1 ∧
      (register_user st index ep pp (RegisterOutcome.rpcError code msg)).2
        = Except.ok (RegisterResult.failed msg) ∧
      (RegisterResult.failed msg).success = false ∧
      (RegisterResult.failed msg).rate_limited = false ∧
      (RegisterResult.failed msg).error = some msg ∧
      (login_user st email password
          (LoginOutcome.rpcError code msg)).1.stats.login_failed
        = st.stats.login_failed + 1 ∧
      (login_user st email password (LoginOutcome.rpcError code msg)).2
        = Except.ok (LoginResult.failed msg) ∧
      (LoginResult.failed msg).success = false ∧
      (LoginResult.failed msg).rate_limited = false) := by
  constructor
  · intro hc
    subst hc
    exact ⟨rfl, rfl, rfl, rfl, rfl, rfl, rfl, rfl, rfl⟩
  · intro hc
    refine ⟨?_, ?_, rfl, rfl, rfl, ?_, ?_, rfl, rfl⟩ <;>
      simp [register_user, login_user, hc]

/-- Witness for C1 at a rate-limited and at an unavailable status. -/
theorem spec_error_classification_witness :
    (register_user initState "7" (fun k => k) (fun k => k)
        (RegisterOutcome.rpcError StatusCode.RESOURCE_EXHAUSTED
          "rate limit")).1.stats.register_rate_limited
      = initState.stats.register_rate_limited + 1 ∧
    (register_user initState "7" (fun k => k) (fun k => k)
        (RegisterOutcome.rpcError StatusCode.UNAVAILABLE
          "conn refused")).1.stats.register_failed
      = initState.stats.register_failed + 1 :=
  ⟨((spec_error_classification initState "7" "e" "p" (fun k => k) (fun k => k)
      StatusCode.RESOURCE_EXHAUSTED "rate limit").1 rfl).1,
   ((spec_error_classification initState "7" "e" "p" (fun k => k) (fun k => k)
      StatusCode.UNAVAILABLE "conn refused").2 (by decide)).1⟩

/-- C2: over any sequence of attempts of one operation in which every remote
call completes, the sum of that operation's success, failed and rate-limited
counters grows by exactly the number of attempts, the other operation's sum
is untouched, and from the all-zero initial state the sum equals the number
of attempts issued. -/
theorem counters_sum_to_attempts (st : TesterState)
    (ras : List RegisterAttempt) (las : List LoginAttempt) (elapsed : Nat)
    (h1 : ∀ a ∈ ras, a.outcome.completes = true)
    (h2 : ∀ a ∈ las, a.outcome.completes = true) :
    regSum (runRegisterList st ras) = regSum st + ras.length ∧
    loginSum (runRegisterList st ras) = loginSum st ∧
    loginSum (runLoginList st las) = loginSum st + las.length ∧
    regSum (runLoginList st las) = regSum st ∧
    regSum (create_users_batch st ras elapsed) = regSum st + ras.length ∧
    regSum (runRegisterList initState ras) = ras.length ∧
    loginSum (runLoginList initState las) = las.length := by
  refine ⟨regSum_runRegisterList ras h1 st, loginSum_runRegisterList ras st,
    loginSum_runLoginList las h2 st, regSum_runLoginList las st,
    regSum_create_users_batch ras h1 st elapsed, ?_, ?_⟩
  · rw [regSum_runRegisterList ras h1 initState]
    have h0 : regSum initState = 0 := rfl
    omega
  · rw [loginSum_runLoginList las h2 initState]
    have h0 : loginSum initState = 0 := rfl
    omega

/-- Witness for C2: two register attempts and one login attempt, all
completing. -/
theorem counters_sum_to_attempts_witness :
    regSum (runRegisterList initState
        [{ index := "0", emailPicks := fun k => k, pwPicks := fun k => k,
           outcome := RegisterOutcome.returns "u" },
         { index := "1", emailPicks := fun k => k, pwPicks := fun k => k,
           outcome := RegisterOutcome.rpcError
             StatusCode.RESOURCE_EXHAUSTED "r" }])
      = regSum initState + 2 :=
  (counters_sum_to_attempts initState
    [{ index := "0", emailPicks := fun k => k, pwPicks := fun k => k,
       outcome := RegisterOutcome.returns "u" },
     { index := "1", emailPicks := fun k => k, pwPicks := fun k => k,
       outcome := RegisterOutcome.rpcError StatusCode.RESOURCE_EXHAUSTED "r" }]
    [{ email := "e", password := "p",
       outcome := LoginOutcome.rpcError StatusCode.INTERNAL "b" }] 5
    (by
      intro a ha
      cases ha with
      | head => rfl
      | tail _ ha2 =>
        cases ha2 with
        | head => rfl
        | tail _ ha3 => cases ha3)
    (by
      intro a ha
      cases ha with
      | head => rfl
      | tail _ ha2 => cases ha2)).1

/-- C3 counterexample: a run of the rate-limiting test phase with one
successful registration attempt increments register_success but adds nothing
to created_users, and a batch whose server response carries an empty user id
produces a created_users entry whose user id is empty. -/
theorem created_users_claim_cex :
    (test_rate_limiting_register initState (fun _ _ => 0) (fun _ _ => 0)
        (fun _ => RegisterOutcome.returns "u0") 1).1.stats.register_success
      = 1 ∧
    (test_rate_limiting_register initState (fun _ _ => 0) (fun _ _ => 0)
        (fun _ => RegisterOutcome.returns "u0") 1).1.created_users = [] ∧
    (create_users_batch initState
        [{ index := "0", emailPicks := fun _ => 0, pwPicks := fun _ => 0,
           outcome := RegisterOutcome.returns "" }] 0).created_users.map
        RegisterResult.user_id = [some ""] :=
  ⟨rfl, rfl, rfl⟩

/-- C3 (amended): create_users_batch appends exactly the successful
registration attempts of the batch to created_users, each entry has a
non-empty email and password, and its user id is the identifier from the
server's response, non-empty whenever the server only returns non-empty
ids; the rate-limiting test phase and login calls never touch
created_users. -/
theorem created_users_characterization (st : TesterState)
    (attempts : List RegisterAttempt) (elapsed n : Nat)
    (ePicks pPicks : Nat → Nat → Nat) (stub : Nat → RegisterOutcome)
    (email password : String) (lo : LoginOutcome)
    (h : ∀ a ∈ attempts, a.outcome.completes = true) :
    (create_users_batch st attempts elapsed).created_users
        = st.created_users ++ attempts.filterMap successEntry ∧
    (∀ r ∈ attempts.filterMap successEntry,
        r.success = true ∧ r.email ≠ some "" ∧ r.password ≠ some "") ∧
    ((∀ a ∈ attempts, ∀ uid, a.outcome = RegisterOutcome.returns uid →
        uid ≠ "") →
      ∀ r ∈ attempts.filterMap successEntry, r.user_id ≠ some "") ∧
    (test_rate_limiting_register st ePicks pPicks stub n).1.created_users
        = st.created_users ∧
    (login_user st email password lo).1.created_users = st.created_users := by
  refine ⟨create_users_batch_created attempts h st elapsed, ?_, ?_,
    test_rate_limiting_register_created_users st ePicks pPicks stub n,
    login_user_created_users st email password lo⟩
  · intro r hrm
    obtain ⟨a, _, uid, _, hreq⟩ := successEntry_spec attempts r hrm
    subst hreq
    refine ⟨rfl, ?_, ?_⟩
    · intro heq
      exact generate_random_email_ne_empty a.index a.emailPicks
        (Option.some.inj heq)
    · intro heq
      exact generate_random_password_ne_empty a.pwPicks (Option.some.inj heq)
  · intro hid r hrm
    obtain ⟨a, ha, uid, hout, hreq⟩ := successEntry_spec attempts r hrm
    subst hreq
    intro heq
    exact hid a ha uid hout (Option.some.inj heq)

/-- Witness for C3 (amended): a one-attempt batch that succeeds. -/
theorem created_users_characterization_witness :
    (create_users_batch initState
        [{ index := "0", emailPicks := fun _ => 0, pwPicks := fun _ => 0,
           outcome := RegisterOutcome.returns "uid1" }] 7).created_users
      = initState.created_users ++
        List.filterMap successEntry
          [{ index := "0", emailPicks := fun _ => 0, pwPicks := fun _ => 0,
             outcome := RegisterOutcome.returns "uid1" }] :=
  (created_users_characterization initState
    [{ index := "0", emailPicks := fun _ => 0, pwPicks := fun _ => 0,
       outcome := RegisterOutcome.returns "uid1" }] 7 0
    (fun _ _ => 0) (fun _ _ => 0) (fun _ => RegisterOutcome.returns "x")
    "e" "p" (LoginOutcome.returns "t")
    (by
      intro a ha
      cases ha with
      | head => rfl
      | tail _ ha2 => cases ha2)).1

/-- C4: every operation of the harness leaves each of the six operation
counters greater than or equal to its previous value: single register and
login calls, sequences of them, the bulk creation batch and the registration
rate-limit test are all monotone on the counters. -/
theorem counters_monotone (st : TesterState) (index email password : String)
    (ep pp : Nat → Nat) (ro : RegisterOutcome) (lo : LoginOutcome)
    (ras : List RegisterAttempt) (las : List LoginAttempt)
    (elapsed n : Nat) (ePicks pPicks : Nat → Nat → Nat)
    (stub : Nat → RegisterOutcome) :
    counterLE st.stats (register_user st index ep pp ro).1.stats ∧
    counterLE st.stats (login_user st email password lo).1.stats ∧
    counterLE st.stats (runRegisterList st ras).stats ∧
    counterLE st.stats (runLoginList st las).stats ∧
    counterLE st.stats (create_users_batch st ras elapsed).stats ∧
    counterLE st.stats
      (test_rate_limiting_register st ePicks pPicks stub n).1.stats :=
  ⟨register_user_counterLE st index ep pp ro,
   login_user_counterLE st email password lo,
   runRegisterList_counterLE ras st,
   runLoginList_counterLE las st,
   create_users_batch_counterLE ras st elapsed,
   test_rate_limiting_register_counterLE st ePicks pPicks stub n⟩

/-- C5: against a mocked stub that rejects exactly every 4th call with a
RESOURCE_EXHAUSTED status and succeeds otherwise, N register_user attempts
from the initial state leave register_rate_limited at floor(N/4) and
register_success at N minus floor(N/4). -/
theorem mock_every_fourth_counts (n : Nat) :
    (runRegisterList initState (mock_attempts n)).stats.register_rate_limited
        = n / 4 ∧
    (runRegisterList initState (mock_attempts n)).stats.register_success
        = n - n / 4 :=
  ⟨(mock_counts n).1, (mock_counts n).2.1⟩

/-- C6 counterexample: a registration attempt whose stub raises a non-RPC
exception leaves every counter unchanged — no outcome is recorded for the
attempt — and the exception propagates out of register_user. -/
theorem outcome_recording_cex :
    (register_user initState "0" (fun k => k) (fun k => k)
        (RegisterOutcome.raises "TypeError: bad argument")).1 = initState ∧
    (register_user initState "0" (fun k => k) (fun k => k)
        (RegisterOutcome.raises "TypeError: bad argument")).2
      = Except.error "TypeError: bad argument" ∧
    regSum (register_user initState "0" (fun k => k) (fun k => k)
        (RegisterOutcome.raises "TypeError: bad argument")).1
      = regSum initState :=
  ⟨rfl, rfl, rfl⟩

/-- C6 (amended): every remote call is issued with the finite 10-second
per-call timeout, and every attempt whose remote call returns or raises an
RPC error records exactly one outcome in the operation's counters; an
attempt whose stub raises a non-RPC exception records nothing and lets the
exception propagate. -/
theorem timeout_and_outcome_recording (st : TesterState)
    (index email password : String) (ep pp : Nat → Nat)
    (ro : RegisterOutcome) (lo : LoginOutcome)
    (hr : ro.completes = true) (hl : lo.completes = true) :
    register_call_timeout = some 10 ∧
    login_call_timeout = some 10 ∧
    regSum (register_user st index ep pp ro).1 = regSum st + 1 ∧
    loginSum (login_user st email password lo).1 = loginSum st + 1 ∧
    (∀ m, (register_user st index ep pp (RegisterOutcome.raises m)).1 = st) ∧
    (∀ m, (login_user st email password (LoginOutcome.raises m)).1 = st) :=
  ⟨rfl, rfl, regSum_register_user st index ep pp ro hr,
   loginSum_login_user st email password lo hl,
   fun _ => rfl, fun _ => rfl⟩

/-- Witness for C6 (amended) at completing outcomes. -/
theorem timeout_and_outcome_recording_witness :
    RegisterOutcome.completes (RegisterOutcome.returns "u") = true ∧
    (register_call_timeout = some 10 ∧
     login_call_timeout = some 10 ∧
     regSum (register_user initState "0" (fun k => k) (fun k => k)
        (RegisterOutcome.returns "u")).1 = regSum initState + 1 ∧
     loginSum (login_user initState "e" "p"
        (LoginOutcome.rpcError StatusCode.UNAVAILABLE "down")).1
       = loginSum initState + 1 ∧
     (∀ m, (register_user initState "0" (fun k => k) (fun k => k)
        (RegisterOutcome.raises m)).1 = initState) ∧
     (∀ m, (login_user initState "e" "p"
        (LoginOutcome.raises m)).1 = initState)) :=
  ⟨rfl, timeout_and_outcome_recording initState "0" "e" "p"
    (fun k => k) (fun k => k) (RegisterOutcome.returns "u")
    (LoginOutcome.rpcError StatusCode.UNAVAILABLE "down") rfl rfl⟩

/-- C7 counterexample: an unexpected (non-RPC) exception reaching main's
top level is logged, but exits without triggering a summary print. -/
theorem summary_on_exception_cex :
    (mainHandler (RunOutcome.unexpectedError "boom")).errorLogged = true ∧
    (mainHandler (RunOutcome.unexpectedError "boom")).summaryPrinted = false :=
  ⟨rfl, rfl⟩

/-- C7 (amended): no RPC error propagates out of register_user or
login_user; at top level a keyboard interrupt is logged and triggers a
summary print before exit, while an unexpected exception is logged (message
and traceback) but exits without a summary print; the channel is
disconnected in every case. -/
theorem error_propagation_amended (st : TesterState)
    (index email password msg m : String) (ep pp : Nat → Nat)
    (code : StatusCode) :
    (register_user st index ep pp (RegisterOutcome.rpcError code m)).2
        = Except.ok (if code = StatusCode.RESOURCE_EXHAUSTED then
            RegisterResult.rateLimited m else RegisterResult.failed m) ∧
    (login_user st email password (LoginOutcome.rpcError code m)).2
        = Except.ok (if code = StatusCode.RESOURCE_EXHAUSTED then
            LoginResult.rateLimited m else LoginResult.failed m) ∧
    mainHandler RunOutcome.keyboardInterrupt
        = { summaryPrinted := true, errorLogged := true,
            disconnected := true } ∧
    mainHandler (RunOutcome.unexpectedError msg)
        = { summaryPrinted := false, errorLogged := true,
            disconnected := true } ∧
    (mainHandler RunOutcome.normal).disconnected = true := by
  refine ⟨?_, ?_, rfl, rfl, rfl⟩ <;>
    by_cases hc : code = StatusCode.RESOURCE_EXHAUSTED <;>
      simp [register_user, login_user, hc]

/-- C8: a registration attempt whose Register call returns normally yields a
record with success true containing the attempted email, password and
username together with the user identifier taken from the response. -/
theorem register_success_record (st : TesterState) (index : String)
    (ep pp : Nat → Nat) (uid : String) :
    register_user st index ep pp (RegisterOutcome.returns uid)
      = ({ st with stats := { st.stats with
            register_success := st.stats.register_success + 1 } },
         Except.ok (RegisterResult.ok (generate_random_email index ep)
           (generate_random_password pp) ("user" ++ index) uid)) ∧
    (RegisterResult.ok (generate_random_email index ep)
        (generate_random_password pp) ("user" ++ index) uid).success = true ∧
    (RegisterResult.ok (generate_random_email index ep)
        (generate_random_password pp) ("user" ++ index) uid).user_id
      = some uid :=
  ⟨rfl, rfl, rfl⟩

/-- C9: a single completing register_user or login_user call increments
exactly one of the six counters by exactly one, leaves the other five and
total_time unchanged, and leaves created_users unchanged. -/
theorem single_call_frame (st : TesterState) (index email password : String)
    (ep pp : Nat → Nat) (ro : RegisterOutcome) (lo : LoginOutcome)
    (hr : ro.completes = true) (hl : lo.completes = true) :
    stepFrame st.stats (register_user st index ep pp ro).1.stats ∧
    (register_user st index ep pp ro).1.created_users = st.created_users ∧
    stepFrame st.stats (login_user st email password lo).1.stats ∧
    (login_user st email password lo).1.created_users = st.created_users :=
  ⟨register_user_stepFrame st index ep pp ro hr,
   register_user_created_users st index ep pp ro,
   login_user_stepFrame st email password lo hl,
   login_user_created_users st email password lo⟩

/-- Witness for C9 at a returning register call and a rate-limited login
call. -/
theorem single_call_frame_witness :
    RegisterOutcome.completes (RegisterOutcome.returns "u9") = true ∧
    (stepFrame initState.stats (register_user initState "3" (fun k => k)
        (fun k => k) (RegisterOutcome.returns "u9")).1.stats ∧
     (register_user initState "3" (fun k => k) (fun k => k)
        (RegisterOutcome.returns "u9")).1.created_users
       = initState.created_users ∧
     stepFrame initState.stats (login_user initState "e" "p"
        (LoginOutcome.rpcError StatusCode.RESOURCE_EXHAUSTED "r")).1.stats ∧
     (login_user initState "e" "p"
        (LoginOutcome.rpcError
          StatusCode.RESOURCE_EXHAUSTED "r")).1.created_users
       = initState.created_users) :=
  ⟨rfl, single_call_frame initState "3" "e" "p" (fun k => k) (fun k => k)
    (RegisterOutcome.returns "u9")
    (LoginOutcome.rpcError StatusCode.RESOURCE_EXHAUSTED "r") rfl rfl⟩

/-- C10: the generated password is exactly 12 characters drawn from ASCII
letters, digits and the five specials; the generated email is
user{index}_ followed by a 6-character suffix over lowercase letters and
digits and the @loadtest.com domain; the username passed to Register is
user{index}; email and password are non-empty. -/
theorem generated_credentials_wf (st : TesterState) (index : String)
    (ep pp : Nat → Nat) (uid : String) :
    (generate_random_password pp).length = 12 ∧
    (∀ c ∈ (generate_random_password pp).toList, c ∈ passwordAlphabet) ∧
    generate_random_email index ep
        = "user" ++ index ++ "_" ++ randomSuffix ep ++ "@loadtest.com" ∧
    (randomSuffix ep).length = 6 ∧
    (∀ c ∈ (randomSuffix ep).toList, c ∈ emailAlphabet) ∧
    generate_random_email index ep ≠ "" ∧
    generate_random_password pp ≠ "" ∧
    (register_user st index ep pp (RegisterOutcome.returns uid)).2
        = Except.ok (RegisterResult.ok (generate_random_email index ep)
            (generate_random_password pp) ("user" ++ index) uid) :=
  ⟨generate_random_password_length pp, generate_random_password_chars pp,
   rfl, randomSuffix_length ep, randomSuffix_chars ep,
   generate_random_email_ne_empty index ep,
   generate_random_password_ne_empty pp, rfl⟩
